import Mathlib

/-!
Verification development for the qa_explorer repository
(`explorer/catalog.py`, `explorer/functors.py`, `explorer/dataset.py`).

The Python classes are shallowly embedded: stateful methods become
explicit state-passing functions, Python exceptions become `Except`,
pandas Series/Index values become association lists keyed by the row
label, and the diagnostic `print` / `logging.warning` output of a call
is returned as an explicit `List String`.

Machine floats only ever carry small exact values in the claims below, so
numeric columns are modelled by exact arithmetic (`ℤ`/`ℚ`); the `inf`
produced by the positional matcher for an unmatched row is modelled by
`none` (`np.isfinite` ↦ `Option.isSome`).
-/

/-- Python exception values (only the kinds the embedded code can raise). -/
inductive PyExc where
  | attributeError (msg : String)
  | keyError (msg : String)
  | valueError (msg : String)
  | notImplementedError (msg : String)
  | nameError (msg : String)
  | storageError (msg : String)
deriving DecidableEq, Repr

instance {ε α : Type} [DecidableEq ε] [DecidableEq α] : DecidableEq (Except ε α) := fun x y =>
  match x, y with
  | .ok a, .ok b =>
      if h : a = b then .isTrue (by rw [h])
      else .isFalse (fun he => h (by injection he))
  | .error a, .error b =>
      if h : a = b then .isTrue (by rw [h])
      else .isFalse (fun he => h (by injection he))
  | .ok _, .error _ => .isFalse (fun he => Except.noConfusion he)
  | .error _, .ok _ => .isFalse (fun he => Except.noConfusion he)

/-- `True` on `.ok`: models a successful `try: ... except: ...` probe. -/
def exceptOk {ε α : Type} : Except ε α → Bool
  | .ok _ => true
  | .error _ => false

/-- Effectful map over a list in the `Except` monad (a Python `for` loop that
propagates the first exception), with structural recursion so that proofs can
proceed by simple induction. -/
def exceptMapList {ε α β : Type} (f : α → Except ε β) : List α → Except ε (List β)
  | [] => .ok []
  | a :: rest => do
    let b ← f a
    let bs ← exceptMapList f rest
    .ok (b :: bs)

/-- A sky position: `ra`/`dec` in degrees (the catalogs' `coords` view),
restricted to integral values in this embedding. -/
structure SkyPoint where
  ra : ℤ
  dec : ℤ
deriving DecidableEq, Repr

/-- Modelled from the spec: the angular separation used by the Positional
Matcher (module `explorer/match.py`, absent from `src/`).  Spec section 4.1 only
requires a nonnegative separation between two points; exact spherical
trigonometry is not representable in exact arithmetic, so separation is
abstracted as squared Euclidean distance in (ra, dec) degrees, which is
nonnegative and zero iff the points coincide — all that the claims depend
on. -/
def sep (p q : SkyPoint) : ℤ :=
  (p.ra - q.ra) * (p.ra - q.ra) + (p.dec - q.dec) * (p.dec - q.dec)

/-- Nearest neighbour of `p` among a tail of list 2 whose first element has
positional index `i`; returns the separation and the neighbour's index. -/
def nearestFrom (p : SkyPoint) : Nat → List SkyPoint → Option (ℤ × Nat)
  | _, [] => none
  | i, q :: rest =>
    match nearestFrom p (i + 1) rest with
    | none => some (sep p q, i)
    | some (d, j) => if sep p q ≤ d then some (sep p q, i) else some (d, j)

/-- Nearest neighbour of `p` in `pts` (separation, positional index);
`none` when `pts` is empty (an infinite distance in the Python code). -/
def nearest (p : SkyPoint) (pts : List SkyPoint) : Option (ℤ × Nat) :=
  nearestFrom p 0 pts

/-- Modelled from the spec: `match_lists` of `explorer/match.py` (imported by
`catalog.py` but absent from `src/`).  Spec section 4.1: for every point of
list 1, report the separation to its nearest neighbour in list 2 and that
neighbour's positional index; "No upper bound is applied inside the matcher
itself — radius filtering is the caller's responsibility"; zero-length input
yields empty results.  Accordingly the radius argument performs no filtering
here, and a row with no neighbour at all (empty list 2) gets `none`
(the `inf` of the Python implementation). -/
def match_lists (pts1 pts2 : List SkyPoint) (r : ℚ) : List (Option (ℤ × Nat)) :=
  let _ := r
  pts1.map (fun p => nearest p pts2)

/-- The view of a constituent catalog that `MatchedCatalog` consumes:
`columnsResult` models the `.columns` probe (which can raise for a broken
catalog) and `rows` the `.ra`/`.dec` coordinate access (label, position);
either may raise, e.g. when the lazy storage backend fails. -/
structure CoordCat where
  columnsResult : Except PyExc (List String)
  rows : Except PyExc (List (ℤ × SkyPoint))
deriving DecidableEq, Repr

/-- The four values computed by `MatchedCatalog._match_cats`
(`catalog.py` lines 89-105), plus its printed summary line. -/
structure MatchResultData where
  inds1 : List ℤ
  inds2 : List ℤ
  dist : List (ℤ × ℤ)
  bad : List ℤ
  msg : String
deriving DecidableEq, Repr

/-- The rows whose matcher result is finite (`good = np.isfinite(dist)`),
paired as (cat1 label, (separation, cat2 positional index)). -/
def goodOf (paired : List (ℤ × Option (ℤ × Nat))) : List (ℤ × ℤ × Nat) :=
  paired.filterMap (fun lr => lr.2.map (fun dr => (lr.1, dr)))

/-- The cat1 labels whose matcher result is infinite (`id1[~good]`). -/
def badOf (paired : List (ℤ × Option (ℤ × Nat))) : List ℤ :=
  paired.filterMap (fun lr =>
    match lr.2 with
    | none => some lr.1
    | some _ => none)

/-- The pure computation inside `MatchedCatalog._match_cats`
(`catalog.py` lines 89-105): run `match_lists` on the two coordinate lists
with `match_radius/3600` degrees, keep the finite rows as good, store the
good cat1 labels, the corresponding cat2 labels (`id2[inds[good]]`), the
separation series in arcseconds (`dist[good] * 3600`) indexed by cat1 label,
and the bad cat1 labels; `msg` is the printed match-count summary. -/
def computeMatch (rows1 rows2 : List (ℤ × SkyPoint)) (match_radius : ℚ) :
    MatchResultData :=
  let id2 := rows2.map Prod.fst
  let paired := (rows1.map Prod.fst).zip
    (match_lists (rows1.map Prod.snd) (rows2.map Prod.snd) (match_radius / 3600))
  let good := goodOf paired
  let bad := badOf paired
  { inds1 := good.map (fun g => g.1)
    inds2 := good.map (fun g => id2.getD g.2.2 0)
    dist := good.map (fun g => (g.1, g.2.1 * 3600))
    bad := bad
    msg := toString good.length ++ " good matches, " ++ toString bad.length ++ " bad." }

/-- `MatchedCatalog` (`catalog.py` lines 64-135): the two catalogs, the
match radius in arcseconds, the tag list, and the four lazily-computed
match-state caches (each `None` until `_match_cats` has run). -/
structure MatchedCatalog where
  cat1 : CoordCat
  cat2 : CoordCat
  tags : List String
  match_radius : ℚ
  _match_distance : Option (List (ℤ × ℤ))
  _match_inds1 : Option (List ℤ)
  _match_inds2 : Option (List ℤ)
  _bad_inds : Option (List ℤ)
deriving DecidableEq, Repr

/-- `MatchedCatalog.__init__` (`catalog.py` lines 65-80): stores the
catalogs, tags (default `['1','2']`), the radius, and clears the caches. -/
def MatchedCatalog.init (cat1 cat2 : CoordCat) (match_radius : ℚ)
    (tags : Option (List String)) : MatchedCatalog :=
  { cat1 := cat1
    cat2 := cat2
    tags := tags.getD ["1", "2"]
    match_radius := match_radius
    _match_distance := none
    _match_inds1 := none
    _match_inds2 := none
    _bad_inds := none }

/-- The four cache assignments at the end of `_match_cats`
(`catalog.py` lines 102-105). -/
def setMatchState (s : MatchedCatalog) (r : MatchResultData) : MatchedCatalog :=
  { s with
    _match_inds1 := some r.inds1
    _match_inds2 := some r.inds2
    _match_distance := some r.dist
    _bad_inds := some r.bad }

/-- `MatchedCatalog._match_cats` (`catalog.py` lines 89-105): read both
catalogs' coordinates (which may raise), compute the match, overwrite all
four caches, and print the summary line.  Returns the updated object and
the printed output. -/
def MatchedCatalog._match_cats (s : MatchedCatalog) :
    Except PyExc (MatchedCatalog × List String) := do
  let rows1 ← s.cat1.rows
  let rows2 ← s.cat2.rows
  let r := computeMatch rows1 rows2 s.match_radius
  pure (setMatchState s r, [r.msg])

/-- `MatchedCatalog.match` (`catalog.py` lines 86-87): it delegates to
`_match_cats` unconditionally — there is no cache check here. -/
def MatchedCatalog.runMatch (s : MatchedCatalog) :
    Except PyExc (MatchedCatalog × List String) :=
  s._match_cats

/-- `MatchedCatalog.match_distance` property (`catalog.py` lines 107-111):
returns the cache if set, else computes first.  Result: (value, updated
object, printed output). -/
def MatchedCatalog.match_distance (s : MatchedCatalog) :
    Except PyExc (List (ℤ × ℤ) × MatchedCatalog × List String) :=
  match s._match_distance with
  | some v => .ok (v, s, [])
  | none => do
    let (s', out) ← s._match_cats
    .ok (s'._match_distance.getD [], s', out)

/-- `MatchedCatalog.match_inds1` property (`catalog.py` lines 113-117). -/
def MatchedCatalog.match_inds1 (s : MatchedCatalog) :
    Except PyExc (List ℤ × MatchedCatalog × List String) :=
  match s._match_inds1 with
  | some v => .ok (v, s, [])
  | none => do
    let (s', out) ← s._match_cats
    .ok (s'._match_inds1.getD [], s', out)

/-- `MatchedCatalog.match_inds2` property (`catalog.py` lines 119-123). -/
def MatchedCatalog.match_inds2 (s : MatchedCatalog) :
    Except PyExc (List ℤ × MatchedCatalog × List String) :=
  match s._match_inds2 with
  | some v => .ok (v, s, [])
  | none => do
    let (s', out) ← s._match_cats
    .ok (s'._match_inds2.getD [], s', out)

/-- `MatchedCatalog.match_inds` property (`catalog.py` lines 125-127):
the pair `(match_inds1, match_inds2)`, evaluated left to right. -/
def MatchedCatalog.match_inds (s : MatchedCatalog) :
    Except PyExc ((List ℤ × List ℤ) × MatchedCatalog × List String) := do
  let (v1, s1, o1) ← s.match_inds1
  let (v2, s2, o2) ← s1.match_inds2
  .ok ((v1, v2), s2, o1 ++ o2)

/-- A freshly constructed `MatchedCatalog`: all four caches unset
(the state produced by `MatchedCatalog.__init__`). -/
def MatchedCatalog.fresh (s : MatchedCatalog) : Prop :=
  s._match_inds1 = none ∧ s._match_inds2 = none ∧
    s._match_distance = none ∧ s._bad_inds = none

instance (s : MatchedCatalog) : Decidable s.fresh := by
  unfold MatchedCatalog.fresh; infer_instance

/-- `MultiMatchedCatalog` (`catalog.py` lines 137-178): the reference
("coadd") catalog, the surviving visit catalogs, the radius, and the
per-visit `MatchedCatalog` sub-objects. -/
structure MultiMatchedCatalog where
  coadd_cat : CoordCat
  visit_cats : List CoordCat
  match_radius : ℚ
  subcats : List MatchedCatalog
deriving DecidableEq, Repr

/-- `MultiMatchedCatalog.__init__` (`catalog.py` lines 138-153): probe each
visit catalog's `.columns` inside `try/except`, silently dropping the ones
that raise; build one `MatchedCatalog(coadd_cat, v)` per surviving visit.
Note the sub-catalogs are built with `MatchedCatalog`'s default radius 0.5,
not with this object's `match_radius`, exactly as in the source. -/
def MultiMatchedCatalog.init (coadd_cat : CoordCat) (visit_cats : List CoordCat)
    (match_radius : ℚ) : MultiMatchedCatalog :=
  let good_visit_cats := visit_cats.filter (fun v => exceptOk v.columnsResult)
  { coadd_cat := coadd_cat
    visit_cats := good_visit_cats
    match_radius := match_radius
    subcats := good_visit_cats.map (fun v => MatchedCatalog.init coadd_cat v (1 / 2) none) }

/-- The loop body of `MultiMatchedCatalog.match` (`catalog.py` lines 159-164):
`try: c.match() except: logging.warning('Skipping catalog {i}.')`.  The first
argument is the enumeration index `i`; the returned list is the updated
sub-catalogs, the second component the combined printed/logged output. -/
def runMatchList : Nat → List MatchedCatalog → List MatchedCatalog × List String
  | _, [] => ([], [])
  | i, c :: rest =>
    let r := runMatchList (i + 1) rest
    match c._match_cats with
    | .ok (c', out) => (c' :: r.1, out ++ r.2)
    | .error _ => (c :: r.1, ("Skipping catalog " ++ toString i ++ ".") :: r.2)

/-- `MultiMatchedCatalog.match` (`catalog.py` lines 159-164).  Its return
type is not `Except`: a sub-match that raises is caught inside the loop and
never propagates to the caller. -/
def MultiMatchedCatalog.runMatch (m : MultiMatchedCatalog) :
    MultiMatchedCatalog × List String :=
  let r := runMatchList 0 m.subcats
  ({ m with subcats := r.1 }, r.2)

/-- `MultiMatchedCatalog.match_inds` property (`catalog.py` lines 172-178):
`for c in subcats: ind1, ind2 = c.match_inds; ind2s.append(ind2)` then
`tuple([ind1] + ind2s)`.  After the loop the leaked variable `ind1` holds the
LAST sub-catalog's cat1 labels; with no sub-catalogs `ind1` is unbound and
Python raises `NameError`. -/
def MultiMatchedCatalog.match_inds (m : MultiMatchedCatalog) :
    Except PyExc (List ℤ × List (List ℤ)) := do
  let pairs ← exceptMapList
    (fun c => Except.map (fun t => t.1) c.match_inds) m.subcats
  if pairs.isEmpty then
    .error (.nameError "ind1")
  else
    .ok ((pairs.getLastD ([], [])).1, pairs.map Prod.snd)

/-- Class attributes of the base `Catalog` (`catalog.py` lines 11-12):
only `index_column`; in particular there is no class-level `data`. -/
def Catalog.classAttrs : List String := ["index_column"]

/-- `Catalog.__init__` (`catalog.py` lines 14-18).  Its first statement is
the bare expression `self.data`; at that point the fresh instance has no
instance attributes and the class provides none named `data`, so the
attribute lookup raises `AttributeError` before `self.columns` is ever
assigned.  On the (unreachable) success path the method would store the
data's column list. -/
def Catalog.init (dataColumns : List String) : Except PyExc (List String) :=
  if "data" ∈ ([] : List String) ++ Catalog.classAttrs then
    .ok dataColumns
  else
    .error (.attributeError "data")

/-- `Catalog._sanitize_columns` (`catalog.py` lines 20-29... lines 20-24):
split off the requested names not in `self.columns`, log one warning if any,
and return `list(set(columns) - set(bad_cols))` — modelled as the
deduplicated kept names (Python's set order is abstracted away).  The second
component is the logged warning output. -/
def Catalog._sanitize_columns (selfColumns : List String) (columns : List String) :
    List String × List String :=
  let bad_cols := columns.filter (fun c => decide (c ∉ selfColumns))
  let warns := if bad_cols.isEmpty then [] else ["Columns not available"]
  ((columns.filter (fun c => decide (c ∈ selfColumns))).dedup, warns)

/-- `self.data[columns]` on a plain table: selecting a missing column raises
`KeyError`, else the selection is returned (modelled by its column list). -/
def pySelect (dataCols cols : List String) : Except PyExc (List String) :=
  if ∀ c ∈ cols, c ∈ dataCols then .ok cols
  else .error (.keyError "column not in data")

/-- `Catalog.get_columns` (`catalog.py` lines 26-29): sanitize when
`check_columns` (its default is `True`), then return `self.data[columns]`.
`selfColumns` is `self.columns`, `dataCols` the underlying data's columns
(equal to `selfColumns` by `__init__` line 16); the `query` parameter of the
source is unused by the body and omitted. -/
def Catalog.get_columns (selfColumns dataCols : List String)
    (columns : List String) (check_columns : Bool) : Except PyExc (List String) :=
  let columns :=
    if check_columns then (Catalog._sanitize_columns selfColumns columns).1 else columns
  pySelect dataCols columns

/-- `ParquetCatalog` (`catalog.py` lines 180-260).  `fileSchema` and
`fileBoolCols` model the environment: the column set of the parquet files and
its boolean-dtype subset (what `dd.read_parquet(...).columns` /
`.select_dtypes(include=['bool'])` would report). -/
structure ParquetCatalog where
  filenames : List String
  fileSchema : List String
  fileBoolCols : List String
  _columns : Option (List String)
  _flags : Option (List String)
deriving DecidableEq, Repr

/-- `ParquetCatalog.__init__` (`catalog.py` lines 181-190): store the file
names and clear the lazy caches. -/
def ParquetCatalog.init (filenames fileSchema fileBoolCols : List String) :
    ParquetCatalog :=
  { filenames := filenames
    fileSchema := fileSchema
    fileBoolCols := fileBoolCols
    _columns := none
    _flags := none }

/-- The storage collaborator `dd.read_parquet(filenames, columns=...)`
(spec section 6: "the requested column set must be honored exactly"):
requesting a column absent from the file schema raises; otherwise the read
returns exactly the requested columns. -/
def read_parquet (fileSchema columns : List String) : Except PyExc (List String) :=
  if ∀ c ∈ columns, c ∈ fileSchema then .ok columns
  else .error (.storageError "requested column not in parquet file")

/-- `ParquetCatalog.flags` property (`catalog.py` lines 199-203). -/
def ParquetCatalog.flags (c : ParquetCatalog) : List String :=
  c._flags.getD c.fileBoolCols

/-- `ParquetCatalog._read_data` (`catalog.py` lines 210-224): append the flag
columns when `add_flags`, then read; the `query` row filter and the phantom
`dir0` drop do not affect the column set and are omitted. -/
def ParquetCatalog._read_data (c : ParquetCatalog) (columns : List String)
    (add_flags : Bool) : Except PyExc (List String) :=
  let columns := if add_flags then columns ++ c.flags else columns
  read_parquet c.fileSchema columns

/-- `ParquetCatalog.get_columns` (`catalog.py` lines 233-260).  The guard
`use_cache and False` is always false, so only the final branch is live:
`cols_to_get = list(columns); return self._read_data(cols_to_get, query=query,
add_flags=add_flags)` with `add_flags=False` by default.  Note that, unlike
the base class, it never calls `_sanitize_columns`. -/
def ParquetCatalog.get_columns (c : ParquetCatalog) (columns : List String) :
    Except PyExc (List String) :=
  c._read_data columns false

/-- The concrete `Functor` subclass a functor object belongs to
(`isinstance` checks in `dataset.py` dispatch on this). -/
inductive FunctorClass where
  | mag
  | column
  | labeller
  | other
deriving DecidableEq, Repr

/-- `Functor` (`functors.py` lines 16-116), renamed `PyFunctor` because Lean
already has a `Functor`: for the claims below only its declared `columns`
and its concrete class matter. -/
structure PyFunctor where
  cls : FunctorClass
  columns : List String
deriving DecidableEq, Repr

/-- `CompositeFunctor.columns` property (`functors.py` lines 166-168):
`[x for y in [f.columns for f in self.funcDict.values()] for x in y]` — the
concatenation, with duplicates, of the constituents' declared columns.
`funcDict` is the functor dictionary in insertion order. -/
def CompositeFunctor.columns (funcDict : List (String × PyFunctor)) : List String :=
  (funcDict.map (fun kv => kv.2.columns)).flatten

/-- The category list of `StarGalaxyLabeller._func` (`functors.py` line 388):
`pd.Categorical.from_codes(test, categories=['galaxy', 'star', 'null'])`. -/
def sgCategories : List String := ["galaxy", "star", "null"]

/-- The per-row code of `StarGalaxyLabeller._func` (`functors.py` lines
382-386): `test = (x < 0.5).astype(int)` then `test.mask(x.isnull(), 2)`.
The extendedness cell is `none` when null. -/
def sgCode (x : Option ℚ) : Nat :=
  match x with
  | none => 2
  | some v => if v < 1 / 2 then 1 else 0

/-- `StarGalaxyLabeller._func` (`functors.py` lines 382-392): each row's code
is turned into its category. -/
def StarGalaxyLabeller_func (xs : List (Option ℚ)) : List String :=
  xs.map (fun x => sgCategories.getD (sgCode x) "null")

/-- The class attribute `NumStarLabeller.labels` (`functors.py` line 397):
`{"star": 0, "maybe": 1, "notStar": 2}`. -/
def NumStarLabeller_labels : List (String × ℤ) :=
  [("star", 0), ("maybe", 1), ("notStar", 2)]

/-- One row of `pd.cut(x, [-1, 0, n-1, n], labels=['noStar', 'maybe', 'star'])`
(`functors.py` line 405): right-closed bins, `none` outside `(-1, n]`. -/
def numStarCut (n v : ℤ) : Option String :=
  if -1 < v ∧ v ≤ 0 then some "noStar"
  else if 0 < v ∧ v ≤ n - 1 then some "maybe"
  else if n - 1 < v ∧ v ≤ n then some "star"
  else none

/-- `NumStarLabeller._func` (`functors.py` lines 399-411):
`n = len(x.unique()) - 1`, then the `pd.cut` above applied to each row of the
`numStarFlags` column. -/
def NumStarLabeller_func (xs : List ℤ) : List (Option String) :=
  let n : ℤ := (xs.dedup.length : ℤ) - 1
  xs.map (numStarCut n)

/-- What `QADataset.color_ds` can hand back to its caller as a VALUE:
either an assembled dataset (the tail of the method, `dataset.py` lines
288-316, abstracted — the claim is about the two guard clauses), or an
exception object that was `return`ed instead of raised. -/
inductive ColorDsResult where
  | dataset
  | excValue (e : PyExc)
deriving DecidableEq, Repr

/-- `QADataset`, reduced to what `color_ds` consults: whether the catalog is
a `MultiBandCatalog` (`is_multiband`, `dataset.py` lines 138-140; the class
itself is absent from `src/` and abstracted to this flag) and the `allfuncs`
dictionary. -/
structure QADataset where
  is_multiband : Bool
  allfuncs : List (String × PyFunctor)
deriving DecidableEq, Repr

/-- Python dict item access `d[k]`: `KeyError` when the key is absent. -/
def pyDictGet (d : List (String × PyFunctor)) (k : String) : Except PyExc PyFunctor :=
  match d.find? (fun kv => kv.1 = k) with
  | some kv => .ok kv.2
  | none => .error (.keyError k)

/-- `QADataset.color_ds` (`dataset.py` lines 282-316).  Line 284 is
`return NotImplementedError('Can only get color_ds if catalog is a
MultiBandCatalog')` — the exception object is RETURNED as the method's value,
not raised.  Line 286 `raise ValueError(...)` does raise.  The remaining
dataframe assembly is abstracted as `.dataset`. -/
def QADataset.color_ds (d : QADataset) (mag : String) : Except PyExc ColorDsResult :=
  if !d.is_multiband then
    .ok (.excValue (.notImplementedError
      "Can only get color_ds if catalog is a MultiBandCatalog"))
  else do
    let f ← pyDictGet d.allfuncs mag
    if f.cls ≠ FunctorClass.mag then
      .error (.valueError ("Requested column must be a magnitude: " ++ mag ++ " requested"))
    else
      .ok .dataset

/-! Concrete instances used to instantiate the theorems below. -/

/-- The origin point. -/
def p00 : SkyPoint := ⟨0, 0⟩

/-- A one-row catalog (label 1 at the origin). -/
def c1_cat1 : CoordCat := ⟨.ok ["coord_ra", "coord_dec"], .ok [(1, p00)]⟩

/-- A one-row catalog (label 2 at the origin). -/
def c1_cat2 : CoordCat := ⟨.ok ["coord_ra", "coord_dec"], .ok [(2, p00)]⟩

/-- A freshly constructed `MatchedCatalog` over the two catalogs above. -/
def c1_s0 : MatchedCatalog := MatchedCatalog.init c1_cat1 c1_cat2 (1 / 2) none

/-- The state of `c1_s0` after its first `match()` call. -/
def c1_s1 : MatchedCatalog :=
  setMatchState c1_s0 (computeMatch [(1, p00)] [(2, p00)] (1 / 2))

/-- Coadd catalog for the `MultiMatchedCatalog.match_inds` example:
labels 1 and 2. -/
def c5_coadd : CoordCat := ⟨.ok ["coord_ra", "coord_dec"], .ok [(1, ⟨0, 0⟩), (2, ⟨5, 5⟩)]⟩

/-- A visit catalog with no rows: every coadd row is unmatched against it. -/
def c5_visitA : CoordCat := ⟨.ok ["coord_ra", "coord_dec"], .ok []⟩

/-- A visit catalog matching both coadd rows (labels 21 and 22). -/
def c5_visitB : CoordCat := ⟨.ok ["coord_ra", "coord_dec"], .ok [(21, ⟨0, 0⟩), (22, ⟨5, 5⟩)]⟩

/-- A `MultiMatchedCatalog` whose two sub-matches have different good sets. -/
def c5_m0 : MultiMatchedCatalog :=
  MultiMatchedCatalog.init c5_coadd [c5_visitA, c5_visitB] 1

/-- Coadd catalog for the partial-failure example. -/
def c6_coadd : CoordCat := ⟨.ok ["coord_ra", "coord_dec"], .ok [(1, p00)]⟩

/-- A visit catalog whose `.columns` probe succeeds but whose coordinate
access raises (a lazily broken storage backend). -/
def c6_visitBad : CoordCat := ⟨.ok ["coord_ra"], .error (.storageError "compute failed")⟩

/-- A healthy visit catalog (label 31). -/
def c6_visitGood : CoordCat := ⟨.ok ["coord_ra", "coord_dec"], .ok [(31, p00)]⟩

/-- A `MultiMatchedCatalog` whose first sub-match raises and whose second
succeeds. -/
def c6_m : MultiMatchedCatalog :=
  MultiMatchedCatalog.init c6_coadd [c6_visitBad, c6_visitGood] 1

/-! Helper lemmas about the matcher and the match-state bookkeeping. -/

/-- Any separation reported by `nearestFrom` is nonnegative. -/
theorem nearestFrom_nonneg (p : SkyPoint) :
    ∀ (pts : List SkyPoint) (i : Nat) (d : ℤ) (j : Nat),
      nearestFrom p i pts = some (d, j) → 0 ≤ d := by
  intro pts
  induction pts with
  | nil => intro i d j h; simp [nearestFrom] at h
  | cons q rest ih =>
    intro i d j h
    have hq : 0 ≤ sep p q := by
      unfold sep
      have h1 : 0 ≤ (p.ra - q.ra) * (p.ra - q.ra) := mul_self_nonneg _
      have h2 : 0 ≤ (p.dec - q.dec) * (p.dec - q.dec) := mul_self_nonneg _
      linarith
    unfold nearestFrom at h
    cases hrec : nearestFrom p (i + 1) rest with
    | none =>
      rw [hrec] at h
      simp at h
      rw [← h.1]
      exact hq
    | some dj =>
      obtain ⟨d', j'⟩ := dj
      rw [hrec] at h
      by_cases hle : sep p q ≤ d'
      · simp [hle] at h
        rw [← h.1]
        exact hq
      · simp [hle] at h
        rw [← h.1]
        exact ih (i + 1) d' j' hrec

/-- Any separation reported by `nearest` is nonnegative. -/
theorem nearest_nonneg (p : SkyPoint) (pts : List SkyPoint) (d : ℤ) (j : Nat)
    (h : nearest p pts = some (d, j)) : 0 ≤ d :=
  nearestFrom_nonneg p pts 0 d j h

/-- A member of `goodOf paired` comes from a `some` entry of `paired`. -/
theorem mem_goodOf (paired : List (ℤ × Option (ℤ × Nat))) (g : ℤ × ℤ × Nat)
    (h : g ∈ goodOf paired) : (g.1, some g.2) ∈ paired := by
  unfold goodOf at h
  obtain ⟨a, ha, hfa⟩ := List.mem_filterMap.mp h
  cases hao : a.2 with
  | none => rw [hao] at hfa; simp at hfa
  | some dr =>
    rw [hao] at hfa
    simp at hfa
    have : a = (g.1, some g.2) := by
      rw [← hfa]
      simp [← hao]
    rw [← this]
    exact ha

/-- The good labels and the bad labels partition the cat1 labels. -/
theorem goodBad_perm (paired : List (ℤ × Option (ℤ × Nat))) :
    ((goodOf paired).map (fun g => g.1) ++ badOf paired).Perm (paired.map Prod.fst) := by
  induction paired with
  | nil => simp [goodOf, badOf]
  | cons a rest ih =>
    obtain ⟨l, o⟩ := a
    cases o with
    | some dr =>
      simp only [goodOf, badOf, List.filterMap_cons, Option.map_some', List.map_cons,
        List.cons_append]
      exact List.Perm.cons l ih
    | none =>
      simp only [goodOf, badOf, List.filterMap_cons, Option.map_none', List.map_cons]
      exact List.perm_middle.trans (List.Perm.cons l ih)

/-- Every separation stored by `computeMatch` in the distance series is
nonnegative. -/
theorem computeMatch_dist_nonneg (rows1 rows2 : List (ℤ × SkyPoint)) (r : ℚ)
    (p : ℤ × ℤ) (hp : p ∈ (computeMatch rows1 rows2 r).dist) : 0 ≤ p.2 := by
  unfold computeMatch at hp
  simp only at hp
  obtain ⟨g, hg, hgp⟩ := List.mem_map.mp hp
  have hmem := mem_goodOf _ g hg
  have hzip := List.of_mem_zip hmem
  have hopt : some g.2 ∈ match_lists (rows1.map Prod.snd) (rows2.map Prod.snd) (r / 3600) :=
    hzip.2
  unfold match_lists at hopt
  obtain ⟨pt, _, hpt⟩ := List.mem_map.mp hopt
  have hd : 0 ≤ g.2.1 := nearest_nonneg pt _ g.2.1 g.2.2 (by rw [hpt])
  rw [← hgp]
  have : (0 : ℤ) ≤ 3600 := by norm_num
  simpa using mul_nonneg hd this

/-- `computeMatch` partitions the cat1 labels into good and bad. -/
theorem computeMatch_partition_perm (rows1 rows2 : List (ℤ × SkyPoint)) (r : ℚ) :
    ((computeMatch rows1 rows2 r).inds1 ++ (computeMatch rows1 rows2 r).bad).Perm
      (rows1.map Prod.fst) := by
  unfold computeMatch
  simp only
  have hlen : (rows1.map Prod.fst).length ≤
      (match_lists (rows1.map Prod.snd) (rows2.map Prod.snd) (r / 3600)).length := by
    unfold match_lists
    simp
  have hfst := List.map_fst_zip (rows1.map Prod.fst)
    (match_lists (rows1.map Prod.snd) (rows2.map Prod.snd) (r / 3600)) hlen
  have hperm := goodBad_perm ((rows1.map Prod.fst).zip
    (match_lists (rows1.map Prod.snd) (rows2.map Prod.snd) (r / 3600)))
  rw [hfst] at hperm
  exact hperm

/-- The distance series computed by `computeMatch` is indexed by exactly the
good cat1 labels, in order. -/
theorem computeMatch_dist_index (rows1 rows2 : List (ℤ × SkyPoint)) (r : ℚ) :
    ((computeMatch rows1 rows2 r).dist).map Prod.fst = (computeMatch rows1 rows2 r).inds1 := by
  unfold computeMatch
  simp [List.map_map, Function.comp]

/-- `computeMatch` produces equally many cat1 and cat2 labels (the matched
pairs align elementwise). -/
theorem computeMatch_len (rows1 rows2 : List (ℤ × SkyPoint)) (r : ℚ) :
    (computeMatch rows1 rows2 r).inds1.length = (computeMatch rows1 rows2 r).inds2.length := by
  unfold computeMatch
  simp

/-- `_match_cats` on catalogs with readable coordinates: it stores the
`computeMatch` result and prints the summary line. -/
theorem _match_cats_eq (s : MatchedCatalog) (r1 r2 : List (ℤ × SkyPoint))
    (h1 : s.cat1.rows = .ok r1) (h2 : s.cat2.rows = .ok r2) :
    s._match_cats = .ok (setMatchState s (computeMatch r1 r2 s.match_radius),
      [(computeMatch r1 r2 s.match_radius).msg]) := by
  unfold MatchedCatalog._match_cats
  rw [h1, h2]
  rfl

/-- `setMatchState` does not touch the catalogs, tags or radius. -/
theorem setMatchState_fields (s : MatchedCatalog) (r : MatchResultData) :
    (setMatchState s r).cat1 = s.cat1 ∧ (setMatchState s r).cat2 = s.cat2 ∧
      (setMatchState s r).match_radius = s.match_radius := by
  unfold setMatchState
  exact ⟨rfl, rfl, rfl⟩

/-- Overwriting the caches twice with the same result is the same as once. -/
theorem setMatchState_idem (s : MatchedCatalog) (r : MatchResultData) :
    setMatchState (setMatchState s r) r = setMatchState s r := rfl

/-- A successful `exceptMapList` has one output per input. -/
theorem exceptMapList_ok_length {ε α β : Type} (f : α → Except ε β) :
    ∀ (l : List α) (ys : List β), exceptMapList f l = .ok ys → ys.length = l.length := by
  intro l
  induction l with
  | nil =>
    intro ys h
    unfold exceptMapList at h
    injection h with h
    rw [← h]
    rfl
  | cons a rest ih =>
    intro ys h
    unfold exceptMapList at h
    cases hf : f a with
    | error e => rw [hf] at h; simp [Bind.bind, Except.bind] at h
    | ok b =>
      rw [hf] at h
      cases hrest : exceptMapList f rest with
      | error e => rw [hrest] at h; simp [Bind.bind, Except.bind] at h
      | ok bs =>
        rw [hrest] at h
        simp [Bind.bind, Except.bind] at h
        rw [← h]
        simp [ih bs hrest]

/-- Every output of a successful `exceptMapList` is the successful image of
some input. -/
theorem exceptMapList_ok_mem {ε α β : Type} (f : α → Except ε β) :
    ∀ (l : List α) (ys : List β), exceptMapList f l = .ok ys →
      ∀ y ∈ ys, ∃ a ∈ l, f a = .ok y := by
  intro l
  induction l with
  | nil =>
    intro ys h y hy
    unfold exceptMapList at h
    injection h with h
    rw [← h] at hy
    simp at hy
  | cons a rest ih =>
    intro ys h y hy
    unfold exceptMapList at h
    cases hf : f a with
    | error e => rw [hf] at h; simp [Bind.bind, Except.bind] at h
    | ok b =>
      rw [hf] at h
      cases hrest : exceptMapList f rest with
      | error e => rw [hrest] at h; simp [Bind.bind, Except.bind] at h
      | ok bs =>
        rw [hrest] at h
        simp [Bind.bind, Except.bind] at h
        rw [← h] at hy
        cases hy with
        | head => exact ⟨a, List.mem_cons_self a rest, hf⟩
        | tail _ hmem =>
          obtain ⟨a', ha', hfa'⟩ := ih bs hrest y hmem
          exact ⟨a', List.mem_cons_of_mem a ha', hfa'⟩

/-- The loop of `MultiMatchedCatalog.match`: the `i`-th sub-catalog is
replaced by its matched state when its sub-match succeeds and kept unchanged
when it raises, and every raising sub-catalog contributes its "Skipping"
warning to the log. -/
theorem runMatchList_spec : ∀ (i : Nat) (l : List MatchedCatalog),
    (runMatchList i l).1 = l.map (fun c =>
      match c._match_cats with
      | .ok p => p.1
      | .error _ => c) ∧
    (∀ (j : Nat) (c : MatchedCatalog) (e : PyExc), l.get? j = some c →
      c._match_cats = .error e →
      ("Skipping catalog " ++ toString (i + j) ++ ".") ∈ (runMatchList i l).2) := by
  intro i l
  induction l generalizing i with
  | nil =>
    refine ⟨rfl, ?_⟩
    intro j c e hj
    simp at hj
  | cons c0 rest ih =>
    constructor
    · unfold runMatchList
      cases hm : c0._match_cats with
      | ok p => simp [hm, (ih (i + 1)).1]
      | error e => simp [hm, (ih (i + 1)).1]
    · intro j c e hj hce
      unfold runMatchList
      cases j with
      | zero =>
        rw [List.get?_cons_zero] at hj
        injection hj with hj
        rw [← hj] at hce
        cases hm : c0._match_cats with
        | ok p => rw [hm] at hce; exact absurd hce (by simp)
        | error e' => simp [hm]
      | succ j' =>
        rw [List.get?_cons_succ] at hj
        have hmem := (ih (i + 1)).2 j' c e hj hce
        have harith : i + 1 + j' = i + (j' + 1) := by omega
        rw [harith] at hmem
        cases hm : c0._match_cats with
        | ok p =>
          simp [hm]
          right
          exact hmem
        | error e' =>
          simp [hm]
          right
          exact hmem

/-- `match_inds` of a freshly constructed `MatchedCatalog` with readable
coordinates: both components come from one `computeMatch` run, so they have
equal length (they are that sub-match's pairing). -/
theorem matchInds_fresh_pair (c : MatchedCatalog) (hf : c.fresh)
    (pr : List ℤ × List ℤ)
    (h : Except.map (fun t => t.1) c.match_inds = .ok pr) :
    pr.1.length = pr.2.length := by
  obtain ⟨hf1, hf2, hf3, hf4⟩ := hf
  cases e1 : c.cat1.rows with
  | error e =>
    unfold MatchedCatalog.match_inds MatchedCatalog.match_inds1 at h
    rw [hf1] at h
    unfold MatchedCatalog._match_cats at h
    rw [e1] at h
    simp [Bind.bind, Except.bind, Except.map] at h
  | ok r1 =>
    cases e2 : c.cat2.rows with
    | error e =>
      unfold MatchedCatalog.match_inds MatchedCatalog.match_inds1 at h
      rw [hf1] at h
      unfold MatchedCatalog._match_cats at h
      rw [e1, e2] at h
      simp [Bind.bind, Except.bind, Except.map] at h
    | ok r2 =>
      have hmc := _match_cats_eq c r1 r2 e1 e2
      unfold MatchedCatalog.match_inds MatchedCatalog.match_inds1 at h
      rw [hf1, hmc] at h
      unfold MatchedCatalog.match_inds2 at h
      simp [Bind.bind, Except.bind, setMatchState, Except.map] at h
      rw [← h]
      simp [computeMatch_len r1 r2 c.match_radius]

/-! The claims. -/

/-- C1 (amended): `match()` is not a cached no-op — it unconditionally
delegates to `_match_cats`, which recomputes the match state and re-emits the
diagnostic summary on every call.  On unchanged inputs the recomputed state
equals the first one (value idempotence), and the caching instead lives in
the `match_distance` / `match_inds1` / `match_inds2` properties, which return
the cache with no recomputation and no output once it is set. -/
theorem runMatch_idempotent (s s₁ : MatchedCatalog) (out : List String)
    (h : s.runMatch = .ok (s₁, out)) :
    s₁.runMatch = .ok (s₁, out) ∧ 0 < out.length ∧
    s₁.match_distance = .ok (s₁._match_distance.getD [], s₁, []) ∧
    s₁.match_inds1 = .ok (s₁._match_inds1.getD [], s₁, []) ∧
    s₁.match_inds2 = .ok (s₁._match_inds2.getD [], s₁, []) := by
  unfold MatchedCatalog.runMatch at h ⊢
  cases e1 : s.cat1.rows with
  | error e =>
    unfold MatchedCatalog._match_cats at h
    rw [e1] at h
    simp [Bind.bind, Except.bind] at h
  | ok r1 =>
    cases e2 : s.cat2.rows with
    | error e =>
      unfold MatchedCatalog._match_cats at h
      rw [e1, e2] at h
      simp [Bind.bind, Except.bind] at h
    | ok r2 =>
      rw [_match_cats_eq s r1 r2 e1 e2] at h
      injection h with h
      rw [Prod.mk.injEq] at h
      obtain ⟨hA, hB⟩ := h
      subst hA
      subst hB
      refine ⟨?_, by simp, rfl, rfl, rfl⟩
      exact _match_cats_eq _ r1 r2 e1 e2

/-- C1 witness: the amended theorem applied to the concrete one-row matched
catalog `c1_s0` after its first `match()` call. -/
theorem runMatch_idempotent_witness :
    c1_s1.runMatch = .ok (c1_s1, ["1 good matches, 0 bad."]) ∧
    0 < (["1 good matches, 0 bad."] : List String).length ∧
    c1_s1.match_distance = .ok (c1_s1._match_distance.getD [], c1_s1, []) ∧
    c1_s1.match_inds1 = .ok (c1_s1._match_inds1.getD [], c1_s1, []) ∧
    c1_s1.match_inds2 = .ok (c1_s1._match_inds2.getD [], c1_s1, []) :=
  runMatch_idempotent c1_s0 c1_s1 ["1 good matches, 0 bad."] (by rfl)

/-- C1 counterexample: on the already-matched state `c1_s1` a second
`match()` call is not a no-op — it runs `_match_cats` again and re-emits the
"1 good matches, 0 bad." diagnostic line (nonempty output), rather than
silently returning the cached state. -/
theorem runMatch_recomputes :
    c1_s0.runMatch = .ok (c1_s1, ["1 good matches, 0 bad."]) ∧
    c1_s1.runMatch = .ok (c1_s1, ["1 good matches, 0 bad."]) ∧
    0 < (["1 good matches, 0 bad."] : List String).length :=
  ⟨rfl, rfl, by decide⟩

/-- C4 (amended): for every match computation, every stored separation is
nonnegative, the good labels plus the bad labels are exactly the cat1 labels
(each row is in exactly one of the two sets), the arcsecond distance series
is indexed by precisely the good cat1 labels, and the good cat1/cat2 label
sequences pair up elementwise.  (The match radius is NOT enforced: the code
filters only by `isfinite`, so a good separation may exceed the radius — see
the counterexample.) -/
theorem computeMatch_partition (rows1 rows2 : List (ℤ × SkyPoint)) (r : ℚ) :
    (∀ p ∈ (computeMatch rows1 rows2 r).dist, 0 ≤ p.2) ∧
    ((computeMatch rows1 rows2 r).inds1 ++ (computeMatch rows1 rows2 r).bad).Perm
      (rows1.map Prod.fst) ∧
    ((computeMatch rows1 rows2 r).dist).map Prod.fst = (computeMatch rows1 rows2 r).inds1 ∧
    (computeMatch rows1 rows2 r).inds1.length = (computeMatch rows1 rows2 r).inds2.length :=
  ⟨fun p hp => computeMatch_dist_nonneg rows1 rows2 r p hp,
   computeMatch_partition_perm rows1 rows2 r,
   computeMatch_dist_index rows1 rows2 r,
   computeMatch_len rows1 rows2 r⟩

/-- C4 witness: the partition theorem at a concrete one-row match, with the
membership hypothesis of the nonnegativity part discharged on the concrete
distance entry `(1, 0)`. -/
theorem computeMatch_partition_witness :
    (0 : ℤ) ≤ ((1 : ℤ), (0 : ℤ)).2 ∧
    ((computeMatch [(1, p00)] [(2, p00)] 1).inds1 ++
        (computeMatch [(1, p00)] [(2, p00)] 1).bad).Perm ([((1 : ℤ), p00)].map Prod.fst) :=
  ⟨(computeMatch_partition [(1, p00)] [(2, p00)] 1).1 ((1 : ℤ), (0 : ℤ)) (by decide),
   (computeMatch_partition [(1, p00)] [(2, p00)] 1).2.1⟩

/-- C4 counterexample: the claim's "finite separation not exceeding the match
radius" is false — with match radius 0.5 arcsec, a cat1 row whose nearest
neighbour lies at separation 25 (degrees², stored as 90000 arcsec) is still
placed in the good set with that distance, because `_match_cats` filters only
by finiteness and the matcher applies no radius bound. -/
theorem match_radius_not_enforced :
    (computeMatch [((1 : ℤ), p00)] [((10 : ℤ), ⟨3, 4⟩)] (1 / 2)).inds1 = [1] ∧
    (computeMatch [((1 : ℤ), p00)] [((10 : ℤ), ⟨3, 4⟩)] (1 / 2)).dist = [(1, 90000)] ∧
    (computeMatch [((1 : ℤ), p00)] [((10 : ℤ), ⟨3, 4⟩)] (1 / 2)).bad = [] ∧
    (1 : ℚ) / 2 < 90000 :=
  ⟨by decide, by decide, by decide, by norm_num⟩

/-- C2 (amended): the base `Catalog.get_columns` (with `check_columns=True`,
its default) validates via `_sanitize_columns` — unknown names produce a
logged warning and are dropped, and the call never raises; but
`ParquetCatalog.get_columns` performs no validation at all: the requested
names are handed unchanged to the storage read, whose error for an unknown
column propagates (see the counterexample). -/
theorem get_columns_validation :
    (∀ known cols : List String, Catalog.get_columns known known cols true
        = .ok ((Catalog._sanitize_columns known cols).1)) ∧
    (∀ known cols : List String,
      ((Catalog._sanitize_columns known cols).2 ≠ [] ↔ ∃ c ∈ cols, c ∉ known)) ∧
    (∀ (c : ParquetCatalog) (cols : List String),
      ParquetCatalog.get_columns c cols = read_parquet c.fileSchema cols) := by
  refine ⟨?_, ?_, fun c cols => rfl⟩
  · intro known cols
    have hsub : ∀ c ∈ (Catalog._sanitize_columns known cols).1, c ∈ known := by
      intro c hc
      unfold Catalog._sanitize_columns at hc
      simp only at hc
      have h1 := List.mem_dedup.mp hc
      have h2 := List.mem_filter.mp h1
      exact of_decide_eq_true h2.2
    unfold Catalog.get_columns pySelect
    simp only [if_true]
    rw [if_pos hsub]
  · intro known cols
    unfold Catalog._sanitize_columns
    simp only
    constructor
    · intro hw
      by_cases hb : (cols.filter (fun c => decide (c ∉ known))).isEmpty
      · rw [if_pos hb] at hw
        exact absurd rfl hw
      · have hne : cols.filter (fun c => decide (c ∉ known)) ≠ [] := by
          intro hnil
          exact hb (by rw [hnil]; rfl)
        obtain ⟨c, hc⟩ := List.exists_mem_of_ne_nil _ hne
        have h2 := List.mem_filter.mp hc
        exact ⟨c, h2.1, of_decide_eq_true h2.2⟩
    · intro hex
      obtain ⟨c, hc, hnot⟩ := hex
      have hmem : c ∈ cols.filter (fun x => decide (x ∉ known)) :=
        List.mem_filter.mpr ⟨hc, decide_eq_true hnot⟩
      have hb : ¬ (cols.filter (fun x => decide (x ∉ known))).isEmpty = true := by
        intro hE
        rw [List.isEmpty_iff] at hE
        rw [hE] at hmem
        simp at hmem
      rw [if_neg hb]
      simp

/-- C2 counterexample: a `ParquetCatalog` over files whose schema is `{a}`
raises a storage error when column `b` is requested through `get_columns` —
the unknown name is not dropped with a warning. -/
theorem parquet_get_columns_raises :
    ParquetCatalog.get_columns (ParquetCatalog.init ["f.parq"] ["a"] []) ["b"]
      = .error (.storageError "requested column not in parquet file") := by decide

/-- C3: `color_ds` on a non-multiband catalog does NOT raise — line 284
`return NotImplementedError(...)` hands the exception object back as the
method's return value (first conjunct), while the non-magnitude guard on
line 286 does raise `ValueError` (second conjunct). -/
theorem color_ds_misuse :
    QADataset.color_ds ⟨false, [("y0", ⟨FunctorClass.mag, ["base_PsfFlux_flux"]⟩)]⟩ "y0"
      = .ok (.excValue (.notImplementedError
          "Can only get color_ds if catalog is a MultiBandCatalog")) ∧
    QADataset.color_ds ⟨true, [("y0", ⟨FunctorClass.other, []⟩)]⟩ "y0"
      = .error (.valueError "Requested column must be a magnitude: y0 requested") :=
  ⟨rfl, rfl⟩

/-- C5 (amended): when `match_inds` of a `MultiMatchedCatalog` (with freshly
constructed sub-catalogs, as `__init__` builds them) succeeds, its first
element is the coadd label sequence of the LAST sub-match only (the loop
variable `ind1` leaks), and the `i`-th visit element is the visit-side label
sequence of visit `i`'s own sub-match — paired elementwise with that
sub-match's own coadd labels, not necessarily with the returned first
element. -/
theorem multi_match_inds_last (m : MultiMatchedCatalog) (res : List ℤ × List (List ℤ))
    (hf : ∀ c ∈ m.subcats, c.fresh)
    (h : m.match_inds = .ok res) :
    ∃ pairs : List (List ℤ × List ℤ),
      exceptMapList (fun c => Except.map (fun t => t.1) c.match_inds) m.subcats
        = .ok pairs ∧
      res.1 = (pairs.getLastD ([], [])).1 ∧
      res.2 = pairs.map Prod.snd ∧
      pairs.length = m.subcats.length ∧
      ∀ p ∈ pairs, p.1.length = p.2.length := by
  unfold MultiMatchedCatalog.match_inds at h
  cases hm : exceptMapList (fun c => Except.map (fun t => t.1) c.match_inds) m.subcats with
  | error e => rw [hm] at h; simp [Bind.bind, Except.bind] at h
  | ok pairs =>
    rw [hm] at h
    simp only [Bind.bind, Except.bind] at h
    by_cases hp : pairs.isEmpty
    · rw [if_pos hp] at h
      exact absurd h (by simp)
    · rw [if_neg hp] at h
      injection h with h
      refine ⟨pairs, rfl, ?_, ?_, exceptMapList_ok_length _ m.subcats pairs hm, ?_⟩
      · rw [← h]
      · rw [← h]
      · intro p hmem
        obtain ⟨c, hc, hfc⟩ := exceptMapList_ok_mem _ m.subcats pairs hm p hmem
        exact matchInds_fresh_pair c (hf c hc) p hfc

/-- C5 witness: the amended theorem at the concrete `c5_m0`, whose first
visit matches nothing and whose second matches both coadd rows. -/
theorem multi_match_inds_last_witness :
    ∃ pairs : List (List ℤ × List ℤ),
      exceptMapList (fun c => Except.map (fun t => t.1) c.match_inds) c5_m0.subcats
        = .ok pairs ∧
      (([1, 2] : List ℤ), ([[], [21, 22]] : List (List ℤ))).1
        = (pairs.getLastD ([], [])).1 ∧
      (([1, 2] : List ℤ), ([[], [21, 22]] : List (List ℤ))).2 = pairs.map Prod.snd ∧
      pairs.length = c5_m0.subcats.length ∧
      ∀ p ∈ pairs, p.1.length = p.2.length :=
  multi_match_inds_last c5_m0 ([1, 2], [[], [21, 22]]) (by decide) (by rfl)

/-- C5 counterexample: on `c5_m0` the returned coadd labels are `[1, 2]`
(from the last sub-match) while the first visit's label sequence is `[]` —
the two have different lengths, so the first visit's sequence is not aligned
with the returned coadd labels. -/
theorem multi_match_inds_misaligned :
    MultiMatchedCatalog.match_inds c5_m0 = .ok ([1, 2], [[], [21, 22]]) ∧
    (([] : List ℤ)).length < (([1, 2] : List ℤ)).length :=
  ⟨rfl, by decide⟩

/-- C6: `MultiMatchedCatalog.match` runs each sub-match independently and
returns normally (its type is not `Except`): a sub-catalog whose sub-match
raises is kept unchanged and contributes a "Skipping catalog i." warning,
while every other sub-catalog is still matched. -/
theorem multi_match_isolates_failures (m : MultiMatchedCatalog) :
    (m.runMatch).1.subcats = m.subcats.map (fun c =>
      match c._match_cats with
      | .ok p => p.1
      | .error _ => c) ∧
    (m.runMatch).1.coadd_cat = m.coadd_cat ∧
    (m.runMatch).1.visit_cats = m.visit_cats ∧
    ∀ (i : Nat) (c : MatchedCatalog) (e : PyExc), m.subcats.get? i = some c →
      c._match_cats = .error e →
      ("Skipping catalog " ++ toString i ++ ".") ∈ (m.runMatch).2 := by
  refine ⟨(runMatchList_spec 0 m.subcats).1, rfl, rfl, ?_⟩
  intro i c e hi hce
  have hmem := (runMatchList_spec 0 m.subcats).2 i c e hi hce
  have harith : 0 + i = i := Nat.zero_add i
  rw [harith] at hmem
  exact hmem

/-- C6 witness: on `c6_m`, whose first visit's coordinate access raises,
`match()` logs "Skipping catalog 0." and returns normally. -/
theorem multi_match_isolates_failures_witness :
    ("Skipping catalog " ++ toString 0 ++ ".") ∈ (MultiMatchedCatalog.runMatch c6_m).2 :=
  (multi_match_isolates_failures c6_m).2.2.2 0
    (MatchedCatalog.init c6_coadd c6_visitBad (1 / 2) none)
    (.storageError "compute failed") (by rfl) (by rfl)

/-- C7: the set of names declared by `CompositeFunctor.columns` is exactly
the union of the constituents' declared column sets; in particular for
constituents requiring `{a, b}` and `{b, c}` it is exactly `{a, b, c}`. -/
theorem composite_columns_union (funcDict : List (String × PyFunctor)) :
    (CompositeFunctor.columns funcDict).toFinset
      = funcDict.foldr (fun kv s => kv.2.columns.toFinset ∪ s) ∅ ∧
    (CompositeFunctor.columns [("f", ⟨FunctorClass.other, ["a", "b"]⟩),
        ("g", ⟨FunctorClass.other, ["b", "c"]⟩)]).toFinset
      = ({"a", "b", "c"} : Finset String) := by
  constructor
  · induction funcDict with
    | nil => simp [CompositeFunctor.columns]
    | cons kv rest ih =>
      simp only [CompositeFunctor.columns, List.map_cons, List.flatten_cons,
        List.toFinset_append, List.foldr_cons] at ih ⊢
      rw [ih]
  · decide

/-- C8: every `StarGalaxyLabeller` output is one of "galaxy", "star" or
"null", and it is "null" exactly for the rows whose extendedness value is
null. -/
theorem sg_labels (xs : List (Option ℚ)) (i : Nat) (h : i < xs.length) :
    ((StarGalaxyLabeller_func xs).get? i = some "galaxy" ∨
     (StarGalaxyLabeller_func xs).get? i = some "star" ∨
     (StarGalaxyLabeller_func xs).get? i = some "null") ∧
    ((StarGalaxyLabeller_func xs).get? i = some "null" ↔ xs.get? i = some none) := by
  have hx : ∃ x, xs.get? i = some x := by
    rw [List.get?_eq_get h]
    exact ⟨_, rfl⟩
  obtain ⟨x, hx⟩ := hx
  have hm : (StarGalaxyLabeller_func xs).get? i
      = some (sgCategories.getD (sgCode x) "null") := by
    unfold StarGalaxyLabeller_func
    rw [List.get?_map, hx]
    rfl
  rw [hm, hx]
  cases x with
  | none =>
    have hc : sgCategories.getD (sgCode none) "null" = "null" := rfl
    rw [hc]
    exact ⟨Or.inr (Or.inr rfl), by simp⟩
  | some v =>
    by_cases hv : v < 1 / 2
    · have hc : sgCategories.getD (sgCode (some v)) "null" = "star" := by
        show sgCategories.getD (if v < 1 / 2 then 1 else 0) "null" = "star"
        rw [if_pos hv]
        rfl
      rw [hc]
      refine ⟨Or.inr (Or.inl rfl), ?_, ?_⟩
      · intro hcontra
        injection hcontra with hcontra
        exact absurd hcontra (by decide)
      · intro hcontra
        injection hcontra with hcontra
        exact absurd hcontra (by simp)
    · have hc : sgCategories.getD (sgCode (some v)) "null" = "galaxy" := by
        show sgCategories.getD (if v < 1 / 2 then 1 else 0) "null" = "galaxy"
        rw [if_neg hv]
        rfl
      rw [hc]
      refine ⟨Or.inl rfl, ?_, ?_⟩
      · intro hcontra
        injection hcontra with hcontra
        exact absurd hcontra (by decide)
      · intro hcontra
        injection hcontra with hcontra
        exact absurd hcontra (by simp)

/-- C8 witness: the label theorem on the concrete column
`[null, 1.0]` at row 0. -/
theorem sg_labels_witness :
    ((StarGalaxyLabeller_func [none, some 1]).get? 0 = some "galaxy" ∨
     (StarGalaxyLabeller_func [none, some 1]).get? 0 = some "star" ∨
     (StarGalaxyLabeller_func [none, some 1]).get? 0 = some "null") ∧
    ((StarGalaxyLabeller_func [none, some 1]).get? 0 = some "null" ↔
      ([none, some 1] : List (Option ℚ)).get? 0 = some none) :=
  sg_labels [none, some 1] 0 (by decide)

/-- C9: on the column `[0, 1, 2]` (so `n = 2`), `NumStarLabeller` emits the
label "noStar" for the row with value 0, but the class's own `labels`
attribute — and the claim — spell it "notStar": the emitted label is not
among the declared ones. -/
theorem numStar_label_mismatch :
    NumStarLabeller_func [0, 1, 2] = [some "noStar", some "maybe", some "star"] ∧
    ((NumStarLabeller_labels.map Prod.fst).contains "noStar") = false := by
  exact ⟨by decide, by decide⟩

/-- C10: the base `Catalog.__init__` reads `self.data` before any assignment,
so constructing a plain `Catalog` raises `AttributeError` for every argument;
the subclasses defining their own `__init__` (`MatchedCatalog`,
`MultiMatchedCatalog`, `ParquetCatalog`) construct normally. -/
theorem base_catalog_init_raises :
    (∀ dataColumns : List String,
      Catalog.init dataColumns = .error (.attributeError "data")) ∧
    (∀ (c1 c2 : CoordCat) (r : ℚ) (t : Option (List String)),
      (MatchedCatalog.init c1 c2 r t).cat1 = c1 ∧
      (MatchedCatalog.init c1 c2 r t).cat2 = c2 ∧
      (MatchedCatalog.init c1 c2 r t)._match_inds1 = none) ∧
    (∀ (coadd : CoordCat) (visits : List CoordCat) (r : ℚ),
      (MultiMatchedCatalog.init coadd visits r).coadd_cat = coadd ∧
      (MultiMatchedCatalog.init coadd visits r).visit_cats
        = visits.filter (fun v => exceptOk v.columnsResult)) ∧
    (∀ (fns schema bools : List String),
      (ParquetCatalog.init fns schema bools).filenames = fns ∧
      (ParquetCatalog.init fns schema bools)._columns = none) :=
  ⟨fun _ => rfl, fun _ _ _ _ => ⟨rfl, rfl, rfl⟩, fun _ _ _ => ⟨rfl, rfl⟩,
   fun _ _ _ => ⟨rfl, rfl⟩⟩
